import Mathlib

/-!
Shallow embedding of the banking-analysis core of this repository:
the number normalizer / table walker / aggregator of
banking_analysis_platform/core/data_aggregator.py and the ratio / BSI
engine of banking_analysis_platform/analytics/calculator.py (thresholds
from config.py).  Python floats are modelled as rationals; the regular
expressions of the source are hand-compiled to a small token matcher
covering exactly the constructs those patterns use (literals, an optional
any-character, a star over one character, a dot-star, and the start and
end anchors).
-/

set_option maxRecDepth 4000

/-- Lower-casing as str.lower() acts on the characters these tables use:
ASCII letters and the Cyrillic range А..Я (plus Ё). -/
def toLowerRu (c : Char) : Char :=
  if 'A' ≤ c ∧ c ≤ 'Z' then Char.ofNat (c.toNat + 32)
  else if 'А' ≤ c ∧ c ≤ 'Я' then Char.ofNat (c.toNat + 32)
  else if c = 'Ё' then 'ё'
  else c

/-- Case-insensitive character comparison (re.IGNORECASE). -/
def lowEq (a b : Char) : Bool := toLowerRu a == toLowerRu b

def toLowerStr (s : String) : String := String.mk (s.data.map toLowerRu)

/-- The whitespace class of str.strip() and of the regex \s, restricted to
the characters that occur in this pipeline's data (a plain space, ASCII
control whitespace, and the non-breaking space U+00A0). -/
def isPySpace (c : Char) : Bool :=
  c == ' ' || c == '\t' || c == '\n' || c == '\r' ||
  c == Char.ofNat 11 || c == Char.ofNat 12 || c == Char.ofNat 160

def pyStrip (cs : List Char) : List Char :=
  ((cs.dropWhile isPySpace).reverse.dropWhile isPySpace).reverse

/-- value.replace(chr(160), " "). -/
def replaceNbsp (cs : List Char) : List Char :=
  cs.map (fun c => if c == Char.ofNat 160 then ' ' else c)

/-- One token of a hand-compiled regular expression. -/
inductive RTok where
  | lit : List Char → RTok
  | optAny : RTok
  | starOf : Char → RTok
  | anyStar : RTok
deriving Repr

/-- A compiled pattern: an optional ^ anchor, the tokens, an optional $
anchor. -/
structure Rx where
  atStart : Bool
  toks : List RTok
  atEnd : Bool
deriving Repr

/-- Case-insensitive "the first list starts the second". -/
def ciStarts : List Char → List Char → Bool
  | [], _ => true
  | _ :: _, [] => false
  | a :: as, b :: bs => lowEq a b && ciStarts as bs

/-- Greedy choice: try f k, then f (k-1), ..., then f 0. -/
def pickGreedy (f : Nat → Option Nat) : Nat → Option Nat
  | 0 => f 0
  | k + 1 =>
    match f (k + 1) with
    | some n => some n
    | none => pickGreedy f k

/-- Number of characters the token list consumes matching at the head of
the text (greedy, with the backtracking preference of the re module), or
none. -/
def matchToks : List RTok → List Char → Option Nat
  | [], _ => some 0
  | .lit l :: ts, cs =>
    if ciStarts l cs then (matchToks ts (cs.drop l.length)).map (· + l.length) else none
  | .optAny :: ts, cs =>
    match cs with
    | [] => matchToks ts []
    | _ :: rest =>
      match matchToks ts rest with
      | some n => some (n + 1)
      | none => matchToks ts cs
  | .starOf c :: ts, cs =>
    pickGreedy (fun k => (matchToks ts (cs.drop k)).map (· + k))
      ((cs.takeWhile (fun b => lowEq c b)).length)
  | .anyStar :: ts, cs =>
    pickGreedy (fun k => (matchToks ts (cs.drop k)).map (· + k)) cs.length

/-- A match of the whole pattern starting exactly here (checking the $
anchor), as the number of characters consumed. -/
def matchHere (rx : Rx) (cs : List Char) : Option Nat :=
  match matchToks rx.toks cs with
  | some n => if rx.atEnd then (if n = cs.length then some n else none) else some n
  | none => none

def searchAux (rx : Rx) : List Char → Bool
  | [] => (matchHere rx []).isSome
  | c :: cs => (matchHere rx (c :: cs)).isSome || (!rx.atStart && searchAux rx cs)

/-- re.search(pattern, s): does the pattern match anywhere in the text? -/
def rxSearch (rx : Rx) (cs : List Char) : Bool := searchAux rx cs

/-- re.sub(pattern, "", s): remove every (leftmost, non-overlapping) match.
A match of zero characters is treated as no match; every pattern this file
compiles starts with a non-empty literal, so its matches are non-empty. -/
def rxRemove (rx : Rx) : List Char → List Char
  | [] => []
  | c :: cs =>
    match matchHere rx (c :: cs) with
    | some (n + 1) => rxRemove rx ((c :: cs).drop (n + 1))
    | _ => c :: rxRemove rx cs
termination_by cs => cs.length
decreasing_by
  · simp only [List.drop_succ_cons, List.length_cons, List.length_drop]; omega
  · simp

/-- A pattern that is one literal. -/
def rxLit (s : String) : Rx := ⟨false, [.lit s.data], false⟩

/-- A pattern of the shape a.*b. -/
def rxPair (a b : String) : Rx := ⟨false, [.lit a.data, .anyStar, .lit b.data], false⟩

/-- A pattern of the shape ^s$. -/
def rxExact (s : String) : Rx := ⟨true, [.lit s.data], true⟩

/-! ## Number normalizer (data_aggregator.py) -/

/-- A cell value handed over by the PDF-to-table step: missing (NaN/None),
a string, or a native number.  A NaN float is modelled as missing, which is
how every pd.isna guard of the source treats it. -/
inductive Cell where
  | cnone : Cell
  | cstr : String → Cell
  | cnum : ℚ → Cell
deriving Repr, DecidableEq

def digitsVal (ds : List Char) : ℕ :=
  ds.foldl (fun a c => a * 10 + (c.toNat - 48)) 0

/-- The exponent suffix of the float() grammar applied to a parsed
mantissa: empty, or e/E, an optional sign and digits, with nothing after. -/
def applyExp (sgn base : ℚ) : List Char → Option ℚ
  | [] => some (sgn * base)
  | e :: r =>
    if e == 'e' || e == 'E' then
      let (eneg, r2) :=
        match r with
        | '-' :: r2 => (true, r2)
        | '+' :: r2 => (false, r2)
        | r2 => (false, r2)
      let ed := r2.takeWhile Char.isDigit
      if ed.isEmpty || !(r2.drop ed.length).isEmpty then none
      else some (sgn * base * (if eneg then ((10 : ℚ) ^ digitsVal ed)⁻¹ else (10 : ℚ) ^ digitsVal ed))
    else none

/-- Python float(text) on the cleaned numeric strings this pipeline
produces: optional sign, digits with an optional fractional part or a bare
fractional part, optional exponent; anything else fails.  (The inf/nan
words and digit-group underscores of the full grammar never survive the
cleanup steps and are not modelled.) -/
def pyFloat (cs0 : List Char) : Option ℚ :=
  let cs := pyStrip cs0
  let sgn : ℚ := if cs.head? = some '-' then -1 else 1
  let cs := if cs.head? = some '-' ∨ cs.head? = some '+' then cs.drop 1 else cs
  let ip := cs.takeWhile Char.isDigit
  match cs.drop ip.length with
  | '.' :: r =>
    let fp := r.takeWhile Char.isDigit
    if ip.isEmpty && fp.isEmpty then none
    else applyExp sgn ((digitsVal ip : ℚ) + (digitsVal fp : ℚ) / (10 : ℚ) ^ fp.length)
      (r.drop fp.length)
  | r =>
    if ip.isEmpty then none else applyExp sgn (digitsVal ip : ℚ) r

/-- The r-sub of trailing currency / percent / whitespace junk. -/
def isTrailJunk (c : Char) : Bool :=
  c == '₽' || c == '$' || c == '€' || c == '%' || isPySpace c

def dropTrailJunk (cs : List Char) : List Char :=
  (cs.reverse.dropWhile isTrailJunk).reverse

def isDigitDashDot (c : Char) : Bool := c.isDigit || c == '-' || c == '.'

/-- The r-sub of leading junk: everything before the first digit, dash or
dot. -/
def dropLeadJunk (cs : List Char) : List Char :=
  cs.dropWhile (fun c => !isDigitDashDot c)

/-- val_str.rsplit(",", 1) when a comma is present: the text before and
after the last comma. -/
def lastCommaSplit (cs : List Char) : Option (List Char × List Char) :=
  if cs.contains ',' then
    let rev := cs.reverse
    some (((rev.dropWhile (· ≠ ',')).drop 1).reverse, (rev.takeWhile (· ≠ ',')).reverse)
  else none

/-- parse_russian_number of data_aggregator.py on a string value: the
Russian localized format 1 234,56 becomes 1234.56; results of magnitude
over 1e16, or non-zero under 1e-6, are rejected. -/
def parse_russian_number (s : String) : Option ℚ :=
  if s = "" ∨ s = "-" ∨ s = "—" ∨ s = "–" then none
  else
    let v1 := pyStrip (replaceNbsp s.data)
    let v2 := dropLeadJunk (dropTrailJunk v1)
    let v4 :=
      match lastCommaSplit v2 with
      | some (ip, dp) =>
        let dps := pyStrip dp
        if dps ≠ [] ∧ dps.all Char.isDigit ∧ dps.length ≤ 3 then
          (ip.filter (fun c => c ≠ ' ' ∧ c ≠ Char.ofNat 160)) ++ '.' :: dps
        else v2.filter (fun c => c ≠ ',' ∧ c ≠ ' ' ∧ c ≠ Char.ofNat 160)
      | none => v2.filter (fun c => c ≠ ' ' ∧ c ≠ Char.ofNat 160)
    match pyFloat v4 with
    | none => none
    | some num =>
      if 1e16 < |num| ∨ (|num| < 1e-6 ∧ num ≠ 0) then none else some num

/-- The token list of the broken unit patterns of data_aggregator.py: the
raw strings double their backslashes, so the compiled regex demands
literal backslash characters (unit, backslash, optional any character,
backslash, a run of the letter s, tail, backslash, optional any
character); it can never match ordinary report text. -/
def rxUnitBroken (u tail : String) : Rx :=
  ⟨false,
    [.lit u.data, .lit ['\\'], .optAny, .lit ['\\'], .starOf 's',
      .lit tail.data, .lit ['\\'], .optAny], false⟩

/-- unit_patterns of data_aggregator.py, in declaration order, each with
its multiplier. -/
def unitPatterns : List (Rx × ℚ) :=
  [(rxUnitBroken "млрд" "р", 1e9), (rxUnitBroken "млрд" "руб", 1e9), (rxLit "млрд", 1e9),
    (rxUnitBroken "млн" "р", 1e6), (rxUnitBroken "млн" "руб", 1e6), (rxLit "млн", 1e6),
    (rxUnitBroken "тыс" "р", 1e3), (rxUnitBroken "тыс" "руб", 1e3), (rxLit "тыс", 1e3)]

/-- The first unit pattern found anywhere in the text, with its
multiplier. -/
def firstUnit (cs : List Char) : Option ℚ :=
  unitPatterns.findSome? (fun p => if rxSearch p.1 cs then some p.2 else none)

/-- The unit-pattern loop of parse_number_with_unit: for each pattern in
order, if it occurs, strip it and parse the remainder; the first pattern
whose remainder parses wins, otherwise the whole string is parsed with
multiplier 1. -/
def unitLoop : List (Rx × ℚ) → String → Option ℚ × ℚ
  | [], val => (parse_russian_number val, 1)
  | (rx, m) :: rest, val =>
    if rxSearch rx val.data then
      match parse_russian_number (String.mk (pyStrip (rxRemove rx val.data))) with
      | some n => (some n, m)
      | none => unitLoop rest val
    else unitLoop rest val

/-- parse_number_with_unit of data_aggregator.py: a cell's numeric value
together with the multiplier of an inline unit annotation. -/
def parse_number_with_unit (v : Cell) : Option ℚ × ℚ :=
  match v with
  | .cnone => (none, 1)
  | .cnum q => (some q, 1)
  | .cstr s =>
    if s = "" ∨ s = "-" ∨ s = "—" then (none, 1)
    else unitLoop unitPatterns (String.mk (pyStrip (replaceNbsp s.data)))

/-! ## Table walker and aggregator (data_aggregator.py) -/

/-- An extracted table: the column count of the DataFrame and its rows
(each row listing the cells of those columns). -/
structure Table where
  ncols : ℕ
  rows : List (List Cell)

/-- A record of financial indicators: an insertion-ordered mapping from
indicator key to value, as a Python dict. -/
abbrev FinData := List (String × ℚ)

/-- Dict assignment: overwrite the key in place, or append it. -/
def setKey : FinData → String → ℚ → FinData
  | [], k, v => [(k, v)]
  | (k', v') :: rest, k, v =>
    if k' = k then (k', v) :: rest else (k', v') :: setKey rest k v

def setKeyNat : List (ℕ × ℚ) → ℕ → ℚ → List (ℕ × ℚ)
  | [], k, v => [(k, v)]
  | (k', v') :: rest, k, v =>
    if k' = k then (k', v) :: rest else (k', v') :: setKeyNat rest k v

/-- Python str() of a cell, as the walker applies it: the string itself
for text.  For a native float the decimal rendering is approximated
(no claim feeds numeric cells through it); a missing value renders
as nan. -/
def strOfCell : Cell → String
  | .cstr s => s
  | .cnum q => if q.den = 1 then toString q.num ++ ".0" else toString q
  | .cnone => "nan"

def isNa : Cell → Bool
  | .cnone => true
  | _ => false

/-- is_table_header: the first cell's lowered text contains "таблица #". -/
def is_table_header (row : List Cell) : Bool :=
  match row.head? with
  | none => false
  | some .cnone => false
  | some c =>
    rxSearch (rxLit "таблица #") (toLowerStr (String.mk (pyStrip (strOfCell c).data))).data

/-- The unit scan over the first ten columns of a row, updating the
per-column unit mapping with the multiplier of the first matching
pattern. -/
def updateUnits (units : List (ℕ × ℚ)) (row : List Cell) : List (ℕ × ℚ) :=
  (List.range (min 10 row.length)).foldl
    (fun us i =>
      match row.getD i Cell.cnone with
      | .cstr s =>
        match firstUnit s.data with
        | some m => setKeyNat us i m
        | none => us
      | _ => us)
    units

/-- detect_units_in_context: a unit in the cell itself, else the next
cell, else the previous cell, else 1. -/
def cellUnit (c : Cell) : Option ℚ :=
  match c with
  | .cstr s => firstUnit s.data
  | _ => none

def detect_units_in_context (row : List Cell) (col : ℕ) : ℚ :=
  match cellUnit (row.getD col Cell.cnone) with
  | some m => m
  | none =>
    match (if col + 1 < row.length then cellUnit (row.getD (col + 1) Cell.cnone) else none) with
    | some m => m
    | none =>
      match (if 1 ≤ col then cellUnit (row.getD (col - 1) Cell.cnone) else none) with
      | some m => m
      | none => 1

/-- The non-empty cells of a row: present, and more than one character
once stripped. -/
def rowNonEmpty (row : List Cell) : List (ℕ × Cell) :=
  row.enum.filter (fun p =>
    !isNa p.2 ∧ String.mk (pyStrip (strOfCell p.2).data) ≠ "" ∧
      (pyStrip (strOfCell p.2).data).length > 1)

/-- The "start of numeric data" test on a stripped cell: purely
digits / whitespace / punctuation, or shorter than three characters. -/
def looksNumericCS (cs : List Char) : Bool :=
  (cs ≠ [] ∧ cs.all fun c =>
      c.isDigit || isPySpace c || c == '.' || c == ',' || c == '%' || c == '-') ||
    cs.length < 3

/-- The label scan over the first up to three non-empty cells: joins the
cells before the first numeric-looking one into the indicator label; a
value start index of a completed scan keeps its initial value 0. -/
def labelScanAux : List Cell → ℕ → List String → ℕ × List String
  | [], _, acc => (0, acc)
  | c :: rest, i, acc =>
    let cs := pyStrip (strOfCell c).data
    if looksNumericCS cs then (i, acc)
    else labelScanAux rest (i + 1) (acc ++ [String.mk cs])

def labelScan (ne : List (ℕ × Cell)) : ℕ × List String :=
  labelScanAux ((ne.take 3).map Prod.snd) 0 []

/-- financial_patterns of data_aggregator.py, in declaration order, each
regex hand-compiled. -/
def financialPatterns : List (String × List Rx) :=
  [("total_assets", [rxLit "итого активов", rxLit "валюта баланса", rxLit "активы всего",
      rxExact "активы", rxPair "активы" "конец"]),
    ("loans_to_customers", [rxLit "кредиты и авансы клиентам", rxLit "кредитный портфель",
      rxLit "ссуды клиентам", rxLit "выданные кредиты", rxPair "кредиты" "физическим",
      rxPair "кредиты" "юридическим"]),
    ("deposits_from_customers", [rxLit "депозиты", rxLit "привлеченные средства",
      rxLit "средства клиентов", rxPair "обязательства" "клиентов", rxLit "вклады"]),
    ("net_income", [rxLit "чистая прибыль", rxPair "прибыль" "налог", rxLit "прибыль за год",
      rxPair "чистая прибыль" "год", rxPair "прибыль" "отчетный период"]),
    ("operating_income", [rxLit "операционный доход", rxLit "операционные поступления",
      rxLit "доходы от основной деятельности", rxPair "доходы" "основная"]),
    ("operating_profit", [rxLit "операционная прибыль",
      rxLit "прибыль от основной деятельности"]),
    ("roa", [rxLit "roa", rxLit "рентабельность активов", rxLit "роа",
      rxPair "рентабельность" "активов"]),
    ("roe", [rxLit "roe", rxLit "рентабельность собственного капитала", rxLit "роэ",
      rxPair "рентабельность" "капитала"]),
    ("net_interest_margin", [rxLit "чистая процентная маржа", rxLit "процентная маржа",
      rxLit "npm", rxPair "чистая" "маржа"]),
    ("cost_to_income_ratio", [rxLit "затраты к доходу", rxLit "cir",
      rxLit "отношение затрат к доходу", rxLit "коэффициент затрат"]),
    ("non_performing_loan_ratio", [rxPair "неработающ" "кредит", rxLit "npl",
      rxPair "просрочен" "кредит", rxLit "стадия 3", rxLit "просроченная задолженность",
      rxLit "нпл"]),
    ("capital_adequacy_ratio", [rxPair "коэффициент" "адекватности", rxLit "базель",
      rxPair "капитал" "уровень", rxLit "cet1", rxLit "базовый капитал"]),
    ("digital_penetration", [rxLit "доля цифровых клиентов", rxLit "цифровая проницаемость",
      rxPair "цифровые клиенты" "доля", rxPair "цифровизация" "клиентов"]),
    ("mobile_penetration", [rxLit "мобильная проницаемость", rxLit "доля мобильных клиентов",
      rxPair "мобильный банкинг" "доля", rxPair "мобильные" "клиенты"]),
    ("active_digital_customers", [rxLit "активные цифровые клиенты", rxLit "mau",
      rxLit "активные пользователи", rxPair "активные клиенты" "мобильный",
      rxPair "активные" "цифровые"]),
    ("number_of_branches", [rxLit "количество отделений", rxLit "число отделений",
      rxLit "сеть отделений", rxPair "отделения и филиалы" "количество",
      rxPair "офисы" "количество"]),
    ("it_staff", [rxLit "it-персонал", rxLit "технический персонал", rxLit "it staff",
      rxPair "сотрудники" "информационные технологии", rxPair "специалисты" "ит"]),
    ("api_count", [rxLit "api", rxLit "интерфейс прикладного программирования",
      rxLit "открытые api", rxPair "api" "интеграция"]),
    ("paperless_operations", [rxLit "безбумажный", rxLit "безбумажные операции",
      rxLit "безбумажные процессы", rxLit "электронный документооборот"]),
    ("electronic_signature_usage", [rxLit "электронная подпись", rxLit "цифровая подпись",
      rxLit "e-подпись", rxLit "эцп", rxLit "электронно-цифровая подпись"]),
    ("remote_account_opening", [rxLit "удаленное открытие счета",
      rxLit "дистанционное открытие счета", rxLit "онлайн-открытие счета",
      rxLit "цифровое открытие счета"]),
    ("churn_rate", [rxLit "коэффициент оттока", rxLit "отток клиентов", rxLit "churn",
      rxPair "отток" "клиенты"]),
    ("retention_rate", [rxLit "коэффициент удержания", rxLit "удержание клиентов",
      rxLit "лояльность", rxPair "удержание" "клиенты"]),
    ("products_per_customer", [rxLit "продукты на клиента",
      rxLit "количество продуктов на клиента", rxLit "среднее число продуктов",
      rxPair "продуктовая" "корзина"]),
    ("cross_sell_rate", [rxLit "кросс-продажи", rxLit "перекрестные продажи",
      rxLit "дополнительные продукты", rxPair "кросс" "продажи"]),
    ("wallet_share", [rxLit "доля кошелька", rxLit "рыночная доля", rxLit "доля рынка",
      rxPair "кошелек" "клиента"]),
    ("credit_cost", [rxLit "стоимость кредитов", rxLit "стоимость риска", rxLit "кор",
      rxPair "резервы" "кредитные убытки", rxPair "стоимость" "кредитования"]),
    ("loan_loss_provision_coverage", [rxLit "резервы под кредитные убытки к проблемным кредитам",
      rxLit "коэффициент резервирования", rxLit "покрытие нпл резервами",
      rxPair "резервы" "нпл"]),
    ("net_interest_income", [rxLit "чистый процентный доход", rxPair "процентный доход" "чистый",
      rxLit "nii"]),
    ("subordinated_debt", [rxLit "субординированный долг",
      rxLit "субординированные обязательства"]),
    ("interest_earning_assets", [rxLit "процентные активы", rxLit "доходные активы"]),
    ("interest_bearing_liabilities", [rxLit "процентные обязательства",
      rxLit "доходные обязательства"]),
    ("net_interest_spread", [rxLit "процентный спред", rxLit "разница ставок"]),
    ("interbank_assets", [rxLit "межбанковские активы", rxPair "активы" "межбанк"]),
    ("interbank_liabilities", [rxLit "межбанковские обязательства",
      rxPair "обязательства" "межбанк"]),
    ("equity_to_debt_ratio", [rxLit "соотношение собственного капитала к заемному",
      rxPair "капитал" "долг"]),
    ("retained_earnings_to_total_assets", [rxLit "соотношение нераспределенной прибыли к активам",
      rxPair "нераспределенная прибыль" "активы"]),
    ("ebit_to_total_assets", [rxLit "соотношение прибыли до вычета процентов и налогов к активам",
      rxPair "ebit" "активы"]),
    ("total_assets_turnover", [rxLit "оборачиваемость активов", rxLit "оборот активов"]),
    ("return_on_net_assets", [rxLit "рентабельность чистых активов", rxLit "рна"]),
    ("return_on_average_total_assets", [rxLit "рентабельность средних активов", rxLit "рсна"]),
    ("return_on_net_assets_after_deducting_non_recurring",
      [rxLit "рентабельность чистых активов после исключения разовых факторов",
        rxLit "рнапосле"]),
    ("interbank_assets_to_interest_earning_assets",
      [rxLit "соотношение межбанковских активов к процентным активам",
        rxPair "межбанк" "доходные активы"]),
    ("deposits_to_interest_bearing_liabilities",
      [rxLit "соотношение депозитов к процентным обязательствам",
        rxPair "депозиты" "процентные обязательства"]),
    ("interbank_liabilities_to_interest_bearing_liabilities",
      [rxLit "соотношение межбанковских обязательств к процентным обязательствам",
        rxPair "межбанк" "процентные обязательства"])]

/-- The first indicator key one of whose patterns occurs in the label. -/
def findParam (ps : List (String × List Rx)) (nameL : String) : Option String :=
  ps.findSome? (fun p => if p.2.any (fun rx => rxSearch rx nameL.data) then some p.1 else none)

/-- The percentage/ratio-family indicators of the walker's guard. -/
def percentageParams : List String :=
  ["roa", "roe", "net_interest_margin", "cost_to_income_ratio",
    "non_performing_loan_ratio", "capital_adequacy_ratio", "churn_rate",
    "retention_rate", "digital_penetration", "mobile_penetration",
    "wallet_share", "credit_cost", "loan_loss_provision_coverage",
    "return_on_net_assets", "return_on_average_total_assets",
    "return_on_net_assets_after_deducting_non_recurring"]

/-- The absolute-amount indicators of the "assume billions" heuristic. -/
def billionsParams : List String :=
  ["total_assets", "loans_to_customers", "deposits_from_customers", "net_income",
    "operating_income"]

/-- The per-cell value resolution of the walker: a percentage-family value
over 100 with no explicit multiplier is discarded (none); an
absolute-amount value is scaled by the multiplier and, for the listed
indicators still under 1e12 with no explicit multiplier and a raw number
over 1, assumed to be in billions. -/
def finalValue (param : String) (num mult : ℚ) : Option ℚ :=
  if param ∈ percentageParams then
    if 100 < num ∧ mult = 1 then none else some num
  else
    let fv := num * mult
    some (if param ∈ billionsParams ∧ fv < 1e12 ∧ mult = 1 ∧ 1 < num then fv * 1e9
      else fv)

/-- The value-extraction loop over the candidate cells from the value
start index on: parse each cell, resolve its multiplier from the column
units or the context, and write the resolved value over the indicator's
entry (last occurrence wins). -/
def applyValues (param : String) (units : List (ℕ × ℚ)) (row : List Cell)
    (cells : List (ℕ × Cell)) (fd : FinData) : FinData :=
  cells.foldl
    (fun fd p =>
      match parse_number_with_unit p.2 with
      | (none, _) => fd
      | (some num, inlineM) =>
        let ctx := ((units.lookup p.1).getD (detect_units_in_context row p.1))
        match finalValue param num (inlineM * ctx) with
        | none => fd
        | some v => setKey fd param v)
    fd

/-- One row of the walker: skip headers and all-empty rows, update the
column units, gather non-empty cells, scan the label, match an indicator
and extract its values. -/
def processRow (st : List (ℕ × ℚ) × FinData) (row : List Cell) :
    List (ℕ × ℚ) × FinData :=
  if is_table_header row || row.all isNa then st
  else
    let units := updateUnits st.1 row
    let ne := rowNonEmpty row
    if ne.length < 2 then (units, st.2)
    else
      let vsi := (labelScan ne).1
      let parts := (labelScan ne).2
      if parts.isEmpty then (units, st.2)
      else
        match findParam financialPatterns (toLowerStr (" ".intercalate parts)) with
        | none => (units, st.2)
        | some param => (units, applyValues param units row (ne.drop vsi) st.2)

/-- One table of the aggregator: tables that are empty or narrower than
two columns are skipped; the rows are walked with a fresh column-unit
mapping. -/
def processTable (fd : FinData) (t : Table) : FinData :=
  if t.rows.isEmpty || t.ncols < 2 then fd
  else (t.rows.foldl processRow ([], fd)).2

/-- The default record: every canonical indicator key, initialized to
zero, in the declaration order of data_aggregator.py. -/
def initFinData : FinData :=
  [("total_assets", 0), ("total_liabilities", 0), ("equity", 0), ("net_income", 0),
    ("cash_and_equivalents", 0), ("loans_to_customers", 0), ("deposits_from_customers", 0),
    ("operating_income", 0), ("operating_profit", 0), ("roa", 0), ("roe", 0),
    ("net_interest_margin", 0), ("cost_to_income_ratio", 0), ("non_performing_loan_ratio", 0),
    ("capital_adequacy_ratio", 0), ("current_liquidity_ratio", 0),
    ("instant_liquidity_ratio", 0), ("digital_penetration", 0), ("mobile_penetration", 0),
    ("active_digital_customers", 0), ("number_of_branches", 0), ("it_staff", 0),
    ("api_count", 0), ("paperless_operations", 0), ("electronic_signature_usage", 0),
    ("remote_account_opening", 0), ("churn_rate", 0), ("retention_rate", 0),
    ("products_per_customer", 0), ("cross_sell_rate", 0), ("wallet_share", 0),
    ("credit_cost", 0), ("loan_loss_provision_coverage", 0), ("net_interest_income", 0),
    ("subordinated_debt", 0), ("interest_earning_assets", 0),
    ("interest_bearing_liabilities", 0), ("net_interest_spread", 0), ("interbank_assets", 0),
    ("interbank_liabilities", 0), ("equity_to_debt_ratio", 0),
    ("retained_earnings_to_total_assets", 0), ("ebit_to_total_assets", 0),
    ("total_assets_turnover", 0), ("return_on_net_assets", 0),
    ("return_on_average_total_assets", 0),
    ("return_on_net_assets_after_deducting_non_recurring", 0),
    ("interbank_assets_to_interest_earning_assets", 0),
    ("deposits_to_interest_bearing_liabilities", 0),
    ("interbank_liabilities_to_interest_bearing_liabilities", 0)]

/-- aggregate_financial_data: fold the walker over the tables, starting
from the default record. -/
def aggregate_financial_data (tables : List Table) : FinData :=
  tables.foldl processTable initFinData

/-! ## Ratio calculator and BSI (analytics/calculator.py, config.py) -/

/-- The financial-record fields BankingRatiosCalculator reads (each
dict.get with default 0). -/
structure FinancialData where
  total_assets : ℚ := 0
  total_liabilities : ℚ := 0
  equity : ℚ := 0
  net_income : ℚ := 0
  cash_and_equivalents : ℚ := 0
  loans_to_customers : ℚ := 0
  net_interest_income : ℚ := 0
  deposits_from_customers : ℚ := 0
  subordinated_debt : ℚ := 0

/-- liquid_assets: the simplified liquid-assets figure. -/
def liquid_assets (d : FinancialData) : ℚ := d.cash_and_equivalents

/-- average_assets: simplified to total assets. -/
def average_assets (d : FinancialData) : ℚ := d.total_assets

/-- demand_deposits: estimated as 70% of customer deposits. -/
def demand_deposits (d : FinancialData) : ℚ := d.deposits_from_customers * 0.7

/-- short_term_liabilities: estimated as 50% of total liabilities. -/
def short_term_liabilities (d : FinancialData) : ℚ := d.total_liabilities * 0.5

/-- RATIOS_THRESHOLDS of config.py: the (min, ideal) pair per ratio; for
problem_loans_ratio the pair is written (max 5%, ideal 2%). -/
def RATIOS_THRESHOLDS : List (String × (ℚ × ℚ)) :=
  [("capital_adequacy", (0.08, 0.12)), ("instant_liquidity", (0.15, 0.25)),
    ("current_liquidity", (1.0, 1.5)), ("roe", (0.10, 0.15)), ("roa", (0.01, 0.02)),
    ("nim", (0.02, 0.04)), ("problem_loans_ratio", (0.05, 0.02))]

def getThr (k : String) : ℚ × ℚ := (RATIOS_THRESHOLDS.lookup k).getD (0, 0)

/-- normalize_score of calculator.py (a rational value is never NaN, so
the NaN guard of the source is vacuous here). -/
def normalize_score (value min_thr max_thr : ℚ) (reverse : Bool) : ℚ :=
  if reverse then
    if value ≤ min_thr then 1
    else if value ≥ max_thr then 0
    else (max_thr - value) / (max_thr - min_thr)
  else
    if value ≥ max_thr then 1
    else if value ≤ min_thr then 0
    else (value - min_thr) / (max_thr - min_thr)

/-- Round a rational to an integer, ties to even, mirroring the rounding
of Python's fixed-point formatting (exact on rationals rather than on
binary doubles). -/
def roundHalfEven (x : ℚ) : ℤ :=
  let f := x.floor
  let r := x - f
  if r < 1 / 2 then f
  else if 1 / 2 < r then f + 1
  else if f % 2 = 0 then f else f + 1

/-- The two-decimal rendering of the format spec .2f. -/
def fmt2 (x : ℚ) : String :=
  let n := roundHalfEven (x * 100)
  let m := n.natAbs
  (if n < 0 then "-" else "") ++ toString (m / 100) ++ "." ++
    (if m % 100 < 10 then "0" else "") ++ toString (m % 100)

/-- The format spec .2%: the value times 100 rendered to two decimals with
a percent sign. -/
def fmtPct2 (x : ℚ) : String := fmt2 (x * 100) ++ "%"

/-- calculate_capital_adequacy: equity over total assets. -/
def calculate_capital_adequacy (d : FinancialData) : ℚ × String :=
  if d.total_assets = 0 then (0, "Cannot calculate: Total assets is zero")
  else
    let ratio := d.equity / d.total_assets
    let t := getThr "capital_adequacy"
    if ratio ≥ t.2 then
      (ratio, "Excellent: " ++ fmtPct2 ratio ++ " (above target of " ++ fmtPct2 t.2 ++ ")")
    else if ratio ≥ t.1 then
      (ratio, "Adequate: " ++ fmtPct2 ratio ++ " (meets minimum of " ++ fmtPct2 t.1 ++ ")")
    else
      (ratio, "Deficient: " ++ fmtPct2 ratio ++ " (below minimum of " ++ fmtPct2 t.1 ++ ")")

/-- calculate_instant_liquidity: liquid assets over demand deposits. -/
def calculate_instant_liquidity (d : FinancialData) : ℚ × String :=
  if demand_deposits d = 0 then (0, "Cannot calculate: Demand deposits is zero")
  else
    let ratio := liquid_assets d / demand_deposits d
    let t := getThr "instant_liquidity"
    if ratio ≥ t.2 then
      (ratio, "Strong: " ++ fmtPct2 ratio ++ " (exceeds target of " ++ fmtPct2 t.2 ++ ")")
    else if ratio ≥ t.1 then
      (ratio, "Adequate: " ++ fmtPct2 ratio ++ " (meets minimum of " ++ fmtPct2 t.1 ++ ")")
    else
      (ratio, "Concerning: " ++ fmtPct2 ratio ++ " (below minimum of " ++ fmtPct2 t.1 ++ ")")

/-- calculate_current_liquidity: liquid assets over short-term
liabilities. -/
def calculate_current_liquidity (d : FinancialData) : ℚ × String :=
  if short_term_liabilities d = 0 then (0, "Cannot calculate: Short-term liabilities is zero")
  else
    let ratio := liquid_assets d / short_term_liabilities d
    let t := getThr "current_liquidity"
    if ratio ≥ t.2 then
      (ratio, "Strong: " ++ fmt2 ratio ++ " (exceeds target of " ++ fmt2 t.2 ++ ")")
    else if ratio ≥ t.1 then
      (ratio, "Adequate: " ++ fmt2 ratio ++ " (meets minimum of " ++ fmt2 t.1 ++ ")")
    else
      (ratio, "Concerning: " ++ fmt2 ratio ++ " (below minimum of " ++ fmt2 t.1 ++ ")")

/-- calculate_roe: net income over equity. -/
def calculate_roe (d : FinancialData) : ℚ × String :=
  if d.equity = 0 then (0, "Cannot calculate: Equity is zero")
  else
    let ratio := d.net_income / d.equity
    let t := getThr "roe"
    if ratio ≥ t.2 then
      (ratio, "Excellent: " ++ fmtPct2 ratio ++ " (exceeds target of " ++ fmtPct2 t.2 ++ ")")
    else if ratio ≥ t.1 then
      (ratio, "Good: " ++ fmtPct2 ratio ++ " (meets minimum of " ++ fmtPct2 t.1 ++ ")")
    else
      (ratio, "Low: " ++ fmtPct2 ratio ++ " (below minimum of " ++ fmtPct2 t.1 ++ ")")

/-- calculate_roa: net income over total assets. -/
def calculate_roa (d : FinancialData) : ℚ × String :=
  if d.total_assets = 0 then (0, "Cannot calculate: Total assets is zero")
  else
    let ratio := d.net_income / d.total_assets
    let t := getThr "roa"
    if ratio ≥ t.2 then
      (ratio, "Excellent: " ++ fmtPct2 ratio ++ " (exceeds target of " ++ fmtPct2 t.2 ++ ")")
    else if ratio ≥ t.1 then
      (ratio, "Good: " ++ fmtPct2 ratio ++ " (meets minimum of " ++ fmtPct2 t.1 ++ ")")
    else
      (ratio, "Low: " ++ fmtPct2 ratio ++ " (below minimum of " ++ fmtPct2 t.1 ++ ")")

/-- calculate_nim: net interest income over average assets. -/
def calculate_nim (d : FinancialData) : ℚ × String :=
  if average_assets d = 0 then (0, "Cannot calculate: Average assets is zero")
  else
    let ratio := d.net_interest_income / average_assets d
    let t := getThr "nim"
    if ratio ≥ t.2 then
      (ratio, "Excellent: " ++ fmtPct2 ratio ++ " (exceeds target of " ++ fmtPct2 t.2 ++ ")")
    else if ratio ≥ t.1 then
      (ratio, "Good: " ++ fmtPct2 ratio ++ " (meets minimum of " ++ fmtPct2 t.1 ++ ")")
    else
      (ratio, "Low: " ++ fmtPct2 ratio ++ " (below minimum of " ++ fmtPct2 t.1 ++ ")")

/-- calculate_problem_loans_ratio: the fixed 3% estimate of non-performing
loans over the loan book, with the inverted (lower-is-better) tiering. -/
def calculate_problem_loans_ratio (d : FinancialData) : ℚ × String :=
  if d.loans_to_customers = 0 then (0, "Cannot calculate: Loans to customers is zero")
  else
    let ratio := d.loans_to_customers * 0.03 / d.loans_to_customers
    let t := getThr "problem_loans_ratio"
    if ratio ≤ t.2 then
      (ratio, "Healthy: " ++ fmtPct2 ratio ++ " (below target of " ++ fmtPct2 t.2 ++ ")")
    else if ratio ≤ t.1 then
      (ratio,
        "Concerning: " ++ fmtPct2 ratio ++ " (approaching threshold of " ++ fmtPct2 t.1 ++ ")")
    else
      (ratio, "Critical: " ++ fmtPct2 ratio ++ " (exceeds threshold of " ++ fmtPct2 t.1 ++ ")")

/-- calculate_all_ratios: the seven ratios in insertion order. -/
def calculate_all_ratios (d : FinancialData) : List (String × (ℚ × String)) :=
  [("capital_adequacy", calculate_capital_adequacy d),
    ("instant_liquidity", calculate_instant_liquidity d),
    ("current_liquidity", calculate_current_liquidity d),
    ("roe", calculate_roe d), ("roa", calculate_roa d), ("nim", calculate_nim d),
    ("problem_loans_ratio", calculate_problem_loans_ratio d)]

/-- The fixed BSI weights. -/
def bsiWeights : List (String × ℚ) :=
  [("capital_adequacy", 0.20), ("instant_liquidity", 0.15), ("current_liquidity", 0.15),
    ("roe", 0.15), ("roa", 0.15), ("nim", 0.10), ("problem_loans_ratio", 0.10)]

/-- The five-band interpretation of a BSI score (the if-chain closing
calculate_bsi). -/
def bsi_interp (bsi : ℚ) : String :=
  if bsi ≥ 0.8 then "Excellent stability: " ++ fmt2 bsi ++ "/1.00"
  else if bsi ≥ 0.6 then "Good stability: " ++ fmt2 bsi ++ "/1.00"
  else if bsi ≥ 0.4 then "Adequate stability: " ++ fmt2 bsi ++ "/1.00"
  else if bsi ≥ 0.2 then "Concerning stability: " ++ fmt2 bsi ++ "/1.00"
  else "Critical stability: " ++ fmt2 bsi ++ "/1.00"

/-- calculate_bsi: normalize each ratio against its threshold pair
(reversed for problem loans) and take the fixed-weight weighted sum. -/
def calculate_bsi (d : FinancialData) : ℚ × String :=
  let all := calculate_all_ratios d
  let normalized : List (String × ℚ) :=
    all.map (fun p =>
      (p.1, normalize_score p.2.1 (getThr p.1).1 (getThr p.1).2 (p.1 == "problem_loans_ratio")))
  let bsi := bsiWeights.foldl (fun acc p => acc + (normalized.lookup p.1).getD 0 * p.2) 0
  (bsi, bsi_interp bsi)

/-! ## Theorems -/

/-- Claim C5: for every threshold pair (min, ideal) with min < ideal and
every value v, normalize_score with reverse = false is 0 at or below the
minimum, 1 at or above the ideal, and the linear interpolation
(v - min)/(ideal - min) strictly between. -/
theorem normalize_score_forward_spec (v mn mx : ℚ) (h : mn < mx) :
    (v ≤ mn → normalize_score v mn mx false = 0) ∧
    (mx ≤ v → normalize_score v mn mx false = 1) ∧
    (mn < v → v < mx → normalize_score v mn mx false = (v - mn) / (mx - mn)) := by
  unfold normalize_score
  refine ⟨fun h1 => ?_, fun h1 => ?_, fun h1 h2 => ?_⟩
  · rw [if_neg (by simp), if_neg (by simp only [ge_iff_le, not_le]; linarith), if_pos h1]
  · rw [if_neg (by simp), if_pos h1]
  · rw [if_neg (by simp), if_neg (by simp only [ge_iff_le, not_le]; linarith),
      if_neg (by simp only [not_le]; linarith)]

/-- Witness for C5 at the capital-adequacy pair (0.08, 0.12) and
v = 0.05. -/
theorem normalize_score_forward_spec_witness :
    normalize_score (0.05 : ℚ) 0.08 0.12 false = 0 :=
  (normalize_score_forward_spec 0.05 0.08 0.12 (by norm_num)).1 (by norm_num)

/-- Claim C2, counterexample: with the shipped problem-loans pair
(0.05, 0.02) the reversed normalization at v = concerning-max = 0.05
yields 1, not the 0 the claim states for every v at or above 0.05. -/
theorem normalize_score_reversed_at_boundary :
    getThr "problem_loans_ratio" = (0.05, 0.02) ∧
    normalize_score 0.05 (getThr "problem_loans_ratio").1 (getThr "problem_loans_ratio").2
        true = 1 ∧
    normalize_score 0.05 (getThr "problem_loans_ratio").1 (getThr "problem_loans_ratio").2
        true ≠ 0 := by
  refine ⟨by with_unfolding_all rfl, by with_unfolding_all rfl, ?_⟩
  have h : normalize_score 0.05 (getThr "problem_loans_ratio").1
      (getThr "problem_loans_ratio").2 true = 1 := by with_unfolding_all rfl
  rw [h]
  norm_num

/-- Claim C2, amended: with the problem-loans pair passed as
(min_thr, max_thr) = (0.05, 0.02), every value at or below 0.05 (hence in
particular every v at or below the ideal-max 0.02) normalizes to 1, and
every value strictly above 0.05 normalizes to 0; the v = 0.05 boundary
falls in the 1 branch. -/
theorem normalize_score_reversed_spec (v : ℚ) :
    (v ≤ (getThr "problem_loans_ratio").1 →
      normalize_score v (getThr "problem_loans_ratio").1 (getThr "problem_loans_ratio").2
        true = 1) ∧
    ((getThr "problem_loans_ratio").1 < v →
      normalize_score v (getThr "problem_loans_ratio").1 (getThr "problem_loans_ratio").2
        true = 0) := by
  have hp : getThr "problem_loans_ratio" = (0.05, 0.02) := by with_unfolding_all rfl
  rw [hp]
  unfold normalize_score
  refine ⟨fun h1 => ?_, fun h1 => ?_⟩
  · rw [if_pos (by simp), if_pos h1]
  · rw [if_pos (by simp), if_neg (by simp only [not_le]; exact h1),
      if_pos (by simp only [ge_iff_le]; norm_num; linarith)]

/-- Claim C10: with the shipped (0.05, 0.02) pair the guard of the
reversed interpolation branch (0.05 < v and v < 0.02) is unsatisfiable,
so the problem-loans normalized score is exactly 1 or exactly 0 for every
value. -/
theorem problem_loans_interpolation_unreachable (v : ℚ) :
    ¬((getThr "problem_loans_ratio").1 < v ∧ v < (getThr "problem_loans_ratio").2) ∧
    (normalize_score v (getThr "problem_loans_ratio").1 (getThr "problem_loans_ratio").2
        true = 1 ∨
      normalize_score v (getThr "problem_loans_ratio").1 (getThr "problem_loans_ratio").2
        true = 0) := by
  have hp : getThr "problem_loans_ratio" = (0.05, 0.02) := by with_unfolding_all rfl
  rw [hp]
  constructor
  · rintro ⟨h1, h2⟩
    norm_num at h1 h2
    linarith
  · rcases le_or_lt v 0.05 with h | h
    · exact Or.inl ((normalize_score_reversed_spec v).1 (by rw [hp]; exact h))
    · exact Or.inr ((normalize_score_reversed_spec v).2 (by rw [hp]; exact h))

/-- Claim C3: a financial record with a zero denominator makes each of the
seven ratio calculations return exactly (0, a "Cannot calculate"
interpretation); in particular zero total assets makes capital adequacy
return (0, "Cannot calculate: Total assets is zero") whatever the other
fields.  The functions are total, so no evaluation raises. -/
theorem zero_denominator_ratios (d : FinancialData) :
    (d.total_assets = 0 →
      calculate_capital_adequacy d = (0, "Cannot calculate: Total assets is zero")) ∧
    (demand_deposits d = 0 →
      calculate_instant_liquidity d = (0, "Cannot calculate: Demand deposits is zero")) ∧
    (short_term_liabilities d = 0 →
      calculate_current_liquidity d = (0, "Cannot calculate: Short-term liabilities is zero")) ∧
    (d.equity = 0 → calculate_roe d = (0, "Cannot calculate: Equity is zero")) ∧
    (d.total_assets = 0 → calculate_roa d = (0, "Cannot calculate: Total assets is zero")) ∧
    (average_assets d = 0 → calculate_nim d = (0, "Cannot calculate: Average assets is zero")) ∧
    (d.loans_to_customers = 0 →
      calculate_problem_loans_ratio d = (0, "Cannot calculate: Loans to customers is zero")) := by
  refine ⟨fun h => ?_, fun h => ?_, fun h => ?_, fun h => ?_, fun h => ?_, fun h => ?_,
    fun h => ?_⟩
  · rw [calculate_capital_adequacy, if_pos h]
  · rw [calculate_instant_liquidity, if_pos h]
  · rw [calculate_current_liquidity, if_pos h]
  · rw [calculate_roe, if_pos h]
  · rw [calculate_roa, if_pos h]
  · rw [calculate_nim, if_pos h]
  · rw [calculate_problem_loans_ratio, if_pos h]

/-- Claim C8: with a non-zero loan book the problem-loans ratio is the
fixed estimate (0.03 × loans) / loans, and the interpretation tier follows
the inverted comparison against the (concerning-max, ideal-max) pair:
healthy at or below the ideal-max, concerning above it up to the
concerning-max, critical above the concerning-max. -/
theorem problem_loans_fixed_estimate (d : FinancialData)
    (h : d.loans_to_customers ≠ 0) :
    (calculate_problem_loans_ratio d).1 =
      d.loans_to_customers * 0.03 / d.loans_to_customers ∧
    ((calculate_problem_loans_ratio d).1 ≤ (getThr "problem_loans_ratio").2 →
      ∃ r, (calculate_problem_loans_ratio d).2 = "Healthy: " ++ r) ∧
    ((getThr "problem_loans_ratio").2 < (calculate_problem_loans_ratio d).1 →
      (calculate_problem_loans_ratio d).1 ≤ (getThr "problem_loans_ratio").1 →
      ∃ r, (calculate_problem_loans_ratio d).2 = "Concerning: " ++ r) ∧
    ((getThr "problem_loans_ratio").1 < (calculate_problem_loans_ratio d).1 →
      ∃ r, (calculate_problem_loans_ratio d).2 = "Critical: " ++ r) := by
  have hthr : getThr "problem_loans_ratio" = (0.05, 0.02) := by with_unfolding_all rfl
  have hr : d.loans_to_customers * 0.03 / d.loans_to_customers = 0.03 := by
    rw [mul_comm, mul_div_assoc, div_self h, mul_one]
  have hc : calculate_problem_loans_ratio d =
      (d.loans_to_customers * 0.03 / d.loans_to_customers,
        "Concerning: " ++ fmtPct2 (d.loans_to_customers * 0.03 / d.loans_to_customers) ++
          " (approaching threshold of " ++ fmtPct2 (getThr "problem_loans_ratio").1 ++ ")") := by
    rw [calculate_problem_loans_ratio, if_neg h]
    simp only [hthr, hr]
    norm_num
  rw [hc]
  refine ⟨rfl, fun h1 => ?_, fun h1 h2 => ?_, fun h1 => ?_⟩
  · rw [hr, hthr] at h1
    norm_num at h1
  · exact ⟨_, rfl⟩
  · rw [hr, hthr] at h1
    norm_num at h1

/-- Witness for C8 at a record whose loan book is 100. -/
theorem problem_loans_fixed_estimate_witness :
    (calculate_problem_loans_ratio { loans_to_customers := 100 }).1 =
      ({ loans_to_customers := 100 } : FinancialData).loans_to_customers * 0.03 /
        ({ loans_to_customers := 100 } : FinancialData).loans_to_customers ∧
    ((calculate_problem_loans_ratio { loans_to_customers := 100 }).1 ≤
        (getThr "problem_loans_ratio").2 →
      ∃ r, (calculate_problem_loans_ratio { loans_to_customers := 100 }).2 =
        "Healthy: " ++ r) ∧
    ((getThr "problem_loans_ratio").2 <
        (calculate_problem_loans_ratio { loans_to_customers := 100 }).1 →
      (calculate_problem_loans_ratio { loans_to_customers := 100 }).1 ≤
        (getThr "problem_loans_ratio").1 →
      ∃ r, (calculate_problem_loans_ratio { loans_to_customers := 100 }).2 =
        "Concerning: " ++ r) ∧
    ((getThr "problem_loans_ratio").1 <
        (calculate_problem_loans_ratio { loans_to_customers := 100 }).1 →
      ∃ r, (calculate_problem_loans_ratio { loans_to_customers := 100 }).2 =
        "Critical: " ++ r) :=
  problem_loans_fixed_estimate { loans_to_customers := 100 } (by norm_num)

/-- The forward normalization lies in [0, 1] whenever the pair is
properly ordered. -/
theorem normalize_score_mem01 (v mn mx : ℚ) (h : mn < mx) :
    0 ≤ normalize_score v mn mx false ∧ normalize_score v mn mx false ≤ 1 := by
  unfold normalize_score
  rw [if_neg (by simp)]
  split_ifs with h1 h2
  · norm_num
  · norm_num
  · push_neg at h1 h2
    constructor
    · apply div_nonneg <;> linarith
    · rw [div_le_one (by linarith)]
      linarith

/-- The reversed normalization with the shipped problem-loans pair is
0 or 1, hence in [0, 1]. -/
theorem normalize_score_rev_mem01 (v : ℚ) :
    0 ≤ normalize_score v 0.05 0.02 true ∧ normalize_score v 0.05 0.02 true ≤ 1 := by
  unfold normalize_score
  rw [if_pos (by simp)]
  split_ifs with h1 h2
  · norm_num
  · norm_num
  · push_neg at h1 h2
    norm_num at h1 h2
    linarith

/-- The BSI score unfolded to the weighted sum of the seven normalized
ratio values. -/
theorem calculate_bsi_fst (d : FinancialData) :
    (calculate_bsi d).1 =
      0 + normalize_score (calculate_capital_adequacy d).1 0.08 0.12 false * 0.20
        + normalize_score (calculate_instant_liquidity d).1 0.15 0.25 false * 0.15
        + normalize_score (calculate_current_liquidity d).1 1.0 1.5 false * 0.15
        + normalize_score (calculate_roe d).1 0.10 0.15 false * 0.15
        + normalize_score (calculate_roa d).1 0.01 0.02 false * 0.15
        + normalize_score (calculate_nim d).1 0.02 0.04 false * 0.10
        + normalize_score (calculate_problem_loans_ratio d).1 0.05 0.02 true * 0.10 := by
  with_unfolding_all rfl

/-- The BSI interpretation is the band function of the BSI score. -/
theorem calculate_bsi_snd (d : FinancialData) :
    (calculate_bsi d).2 = bsi_interp (calculate_bsi d).1 := rfl

/-- The interpretation bands of the BSI, inclusive on each lower bound. -/
theorem bsi_interp_bands (s : ℚ) :
    (0.8 ≤ s → ∃ r, bsi_interp s = "Excellent stability: " ++ r) ∧
    (0.6 ≤ s → s < 0.8 → ∃ r, bsi_interp s = "Good stability: " ++ r) ∧
    (0.4 ≤ s → s < 0.6 → ∃ r, bsi_interp s = "Adequate stability: " ++ r) ∧
    (0.2 ≤ s → s < 0.4 → ∃ r, bsi_interp s = "Concerning stability: " ++ r) ∧
    (s < 0.2 → ∃ r, bsi_interp s = "Critical stability: " ++ r) := by
  unfold bsi_interp
  refine ⟨fun h1 => ?_, fun h1 h2 => ?_, fun h1 h2 => ?_, fun h1 h2 => ?_, fun h1 => ?_⟩
  · rw [if_pos h1]
    exact ⟨_, rfl⟩
  · rw [if_neg (not_le.mpr h2), if_pos h1]
    exact ⟨_, rfl⟩
  · rw [if_neg (not_le.mpr (by linarith)), if_neg (not_le.mpr h2), if_pos h1]
    exact ⟨_, rfl⟩
  · rw [if_neg (not_le.mpr (by linarith)), if_neg (not_le.mpr (by linarith)),
      if_neg (not_le.mpr h2), if_pos h1]
    exact ⟨_, rfl⟩
  · rw [if_neg (not_le.mpr (by linarith)), if_neg (not_le.mpr (by linarith)),
      if_neg (not_le.mpr (by linarith)), if_neg (not_le.mpr h1)]
    exact ⟨_, rfl⟩

/-- Claim C9: for every input record the BSI score lies in [0, 1] and the
interpretation band is selected with inclusive lower bounds (at or above
0.8 excellent, 0.6 good, 0.4 adequate, 0.2 concerning, below critical). -/
theorem bsi_bounded_and_banded (d : FinancialData) :
    0 ≤ (calculate_bsi d).1 ∧ (calculate_bsi d).1 ≤ 1 ∧
    (0.8 ≤ (calculate_bsi d).1 →
      ∃ r, (calculate_bsi d).2 = "Excellent stability: " ++ r) ∧
    (0.6 ≤ (calculate_bsi d).1 → (calculate_bsi d).1 < 0.8 →
      ∃ r, (calculate_bsi d).2 = "Good stability: " ++ r) ∧
    (0.4 ≤ (calculate_bsi d).1 → (calculate_bsi d).1 < 0.6 →
      ∃ r, (calculate_bsi d).2 = "Adequate stability: " ++ r) ∧
    (0.2 ≤ (calculate_bsi d).1 → (calculate_bsi d).1 < 0.4 →
      ∃ r, (calculate_bsi d).2 = "Concerning stability: " ++ r) ∧
    ((calculate_bsi d).1 < 0.2 →
      ∃ r, (calculate_bsi d).2 = "Critical stability: " ++ r) := by
  obtain ⟨b1, b2⟩ := normalize_score_mem01 (calculate_capital_adequacy d).1 0.08 0.12
    (by norm_num)
  obtain ⟨b3, b4⟩ := normalize_score_mem01 (calculate_instant_liquidity d).1 0.15 0.25
    (by norm_num)
  obtain ⟨b5, b6⟩ := normalize_score_mem01 (calculate_current_liquidity d).1 1.0 1.5
    (by norm_num)
  obtain ⟨b7, b8⟩ := normalize_score_mem01 (calculate_roe d).1 0.10 0.15 (by norm_num)
  obtain ⟨b9, b10⟩ := normalize_score_mem01 (calculate_roa d).1 0.01 0.02 (by norm_num)
  obtain ⟨b11, b12⟩ := normalize_score_mem01 (calculate_nim d).1 0.02 0.04 (by norm_num)
  obtain ⟨b13, b14⟩ := normalize_score_rev_mem01 (calculate_problem_loans_ratio d).1
  have hfst := calculate_bsi_fst d
  have h0 : 0 ≤ (calculate_bsi d).1 := by rw [hfst]; nlinarith
  have h1 : (calculate_bsi d).1 ≤ 1 := by rw [hfst]; nlinarith
  have hbands := bsi_interp_bands (calculate_bsi d).1
  rw [← calculate_bsi_snd d] at hbands
  exact ⟨h0, h1, hbands.1, hbands.2.1, hbands.2.2.1, hbands.2.2.2.1, hbands.2.2.2.2⟩

/-- Claim C6, counterexample: in "1, 23" the text after the last comma is
" 23", not a run of 1-3 digits forming the entire remainder, yet the
parser strips it and treats the comma as a decimal separator, giving 1.23
instead of the 123 the claim's thousands-separator reading demands. -/
theorem parse_russian_number_stripped_fraction :
    parse_russian_number "1, 23" = some 1.23 ∧ parse_russian_number "1, 23" ≠ some 123 := by
  have h : parse_russian_number "1, 23" = some 1.23 := by with_unfolding_all rfl
  refine ⟨h, ?_⟩
  rw [h]
  intro hc
  injection hc with hc
  norm_num at hc

/-- Claim C6, amended: the localized parser maps the dash sentinel to
none; parses "1 234,56" to 1234.56; strips commas as thousands separators
when more than three digits follow the last comma, so "1234,5678" is
12345678, not 1234.5678; treats the comma as a decimal separator exactly
when the remainder after the last comma, once stripped of surrounding
whitespace, is a run of 1-3 digits (so "1, 23" is 1.23); and never returns
a value of magnitude over 1e16 or non-zero under 1e-6. -/
theorem parse_russian_number_comma_rule :
    parse_russian_number "-" = none ∧
    parse_russian_number "1 234,56" = some 1234.56 ∧
    parse_russian_number "1234,5678" = some 12345678 ∧
    parse_russian_number "1234,5678" ≠ some 1234.5678 ∧
    parse_russian_number "1, 23" = some 1.23 ∧
    ∀ (s : String) (q : ℚ), parse_russian_number s = some q →
      |q| ≤ 1e16 ∧ (q ≠ 0 → 1e-6 ≤ |q|) := by
  have h3 : parse_russian_number "1234,5678" = some 12345678 := by with_unfolding_all rfl
  refine ⟨by with_unfolding_all rfl, by with_unfolding_all rfl, h3, ?_,
    by with_unfolding_all rfl, ?_⟩
  · rw [h3]
    intro hc
    injection hc with hc
    norm_num at hc
  · intro s q h
    rw [parse_russian_number] at h
    split at h
    · exact absurd h (by simp)
    · simp only [] at h
      split at h
      · exact absurd h (by simp)
      · rename_i num heq
        split at h
        · exact absurd h (by simp)
        · rename_i hguard
          obtain rfl : num = q := by injection h
          push_neg at hguard
          refine ⟨hguard.1, fun hq => ?_⟩
          by_contra hlt
          push_neg at hlt
          exact hq (hguard.2 hlt)

/-- Dict assignment never removes a key. -/
theorem lookup_isSome_setKey {fd : FinData} {k : String} (k' : String) (v : ℚ)
    (h : (fd.lookup k).isSome) : ((setKey fd k' v).lookup k).isSome := by
  induction fd with
  | nil => simp [List.lookup] at h
  | cons a rest ih =>
    obtain ⟨a1, a2⟩ := a
    by_cases h1 : a1 = k'
    · rw [setKey, if_pos h1]
      cases hk : k == a1 with
      | true => simp only [List.lookup, hk, Option.isSome_some]
      | false =>
        simp only [List.lookup, hk] at h ⊢
        exact h
    · rw [setKey, if_neg h1]
      cases hk : k == a1 with
      | true => simp only [List.lookup, hk, Option.isSome_some]
      | false =>
        simp only [List.lookup, hk] at h ⊢
        exact ih h

/-- A fold of record-preserving steps never removes a key. -/
theorem lookup_isSome_foldl {α : Type} {k : String} (f : FinData → α → FinData)
    (hf : ∀ (fd : FinData) (a : α), (fd.lookup k).isSome → ((f fd a).lookup k).isSome) :
    ∀ (l : List α) (fd : FinData), (fd.lookup k).isSome →
      ((l.foldl f fd).lookup k).isSome := by
  intro l
  induction l with
  | nil => exact fun fd h => h
  | cons a rest ih => exact fun fd h => ih _ (hf fd a h)

/-- The value-extraction loop never removes a key. -/
theorem lookup_isSome_applyValues {k : String} (param : String) (units : List (ℕ × ℚ))
    (row : List Cell) (cells : List (ℕ × Cell)) (fd : FinData)
    (h : (fd.lookup k).isSome) : ((applyValues param units row cells fd).lookup k).isSome := by
  refine lookup_isSome_foldl _ (fun fd p hfd => ?_) cells fd h
  rcases hp : parse_number_with_unit p.2 with ⟨o, m⟩
  rcases o with _ | num
  · exact hfd
  · show (List.lookup k
        (match finalValue param num
            (m * (List.lookup p.1 units).getD (detect_units_in_context row p.1)) with
          | none => fd
          | some v => setKey fd param v)).isSome = true
    cases hv : finalValue param num
        (m * (List.lookup p.1 units).getD (detect_units_in_context row p.1)) with
    | none => exact hfd
    | some v => exact lookup_isSome_setKey param v hfd

/-- One walker row never removes a key from the record. -/
theorem lookup_isSome_processRow {k : String} (st : List (ℕ × ℚ) × FinData)
    (row : List Cell) (h : (st.2.lookup k).isSome) :
    (((processRow st row).2).lookup k).isSome := by
  rw [processRow]
  split_ifs
  · exact h
  · simp only []
    split
    · exact h
    · split
      · exact h
      · split
        · exact h
        · exact lookup_isSome_applyValues _ _ _ _ _ h

/-- One aggregated table never removes a key. -/
theorem lookup_isSome_processTable {k : String} (fd : FinData) (t : Table)
    (h : (fd.lookup k).isSome) : ((processTable fd t).lookup k).isSome := by
  rw [processTable]
  split_ifs
  · exact h
  · have hfold : ∀ (rows : List (List Cell)) (st : List (ℕ × ℚ) × FinData),
        (st.2.lookup k).isSome → (((rows.foldl processRow st).2).lookup k).isSome := by
      intro rows
      induction rows with
      | nil => exact fun st h => h
      | cons r rest ih => exact fun st h => ih _ (lookup_isSome_processRow st r h)
    exact hfold t.rows ([], fd) h

/-- A key of the key column is found by lookup. -/
theorem lookup_isSome_of_mem_keys {k : String} {l : FinData}
    (h : k ∈ l.map Prod.fst) : (l.lookup k).isSome := by
  induction l with
  | nil => simp at h
  | cons a rest ih =>
    simp only [List.map_cons, List.mem_cons] at h
    cases hk : k == a.1 with
    | true => simp only [List.lookup, hk, Option.isSome_some]
    | false =>
      simp only [List.lookup, hk]
      rcases h with h | h
      · exact absurd (beq_iff_eq.mpr h) (by simp [hk])
      · exact ih h

/-- Claim C4: aggregating an empty table list returns, without raising,
the record holding every canonical indicator key at its zero default; and
every aggregated record keeps every canonical key present. -/
theorem aggregate_empty_defaults :
    aggregate_financial_data [] = initFinData ∧
    (∀ p ∈ initFinData, p.2 = 0) ∧
    ∀ (ts : List Table) (k : String), k ∈ initFinData.map Prod.fst →
      ((aggregate_financial_data ts).lookup k).isSome := by
  refine ⟨rfl, by decide, fun ts k hk => ?_⟩
  rw [aggregate_financial_data]
  exact lookup_isSome_foldl processTable (fun fd t h => lookup_isSome_processTable fd t h)
    ts initFinData (lookup_isSome_of_mem_keys hk)

/-- Claim C7: a percentage-family value over 100 resolved with no explicit
multiplier is discarded; in particular the table with the single row
["ROE (%)", "120"] leaves the whole record, and the roe indicator, at its
defaults. -/
theorem implausible_percentage_guard (p : String) (n m : ℚ)
    (hp : p ∈ percentageParams) (hn : 100 < n) (hm : m = 1) :
    finalValue p n m = none ∧
    (aggregate_financial_data [⟨2, [[Cell.cstr "ROE (%)", Cell.cstr "120"]]⟩]).lookup "roe"
      = some 0 ∧
    aggregate_financial_data [⟨2, [[Cell.cstr "ROE (%)", Cell.cstr "120"]]⟩] = initFinData := by
  refine ⟨?_, by with_unfolding_all rfl, by with_unfolding_all rfl⟩
  rw [finalValue, if_pos hp, if_pos ⟨hn, hm⟩]

/-- Witness for C7 at the roe indicator with the raw value 120 and no
multiplier. -/
theorem implausible_percentage_guard_witness :
    finalValue "roe" 120 1 = none ∧
    (aggregate_financial_data [⟨2, [[Cell.cstr "ROE (%)", Cell.cstr "120"]]⟩]).lookup "roe"
      = some 0 ∧
    aggregate_financial_data [⟨2, [[Cell.cstr "ROE (%)", Cell.cstr "120"]]⟩] = initFinData :=
  implausible_percentage_guard "roe" 120 1 (by simp [percentageParams]) (by norm_num) rfl

/-- Claim C1 (the code at the failing input): the cell "1 234,5 МЛРД РУБ"
fails to parse — the unit patterns carrying the currency word are written
with doubled backslashes and cannot match, so "РУБ" survives into the
number parser and defeats it — and the aggregated record keeps
total_assets at 0 rather than the 1234.5e9 the spec's scenario expects. -/
theorem total_assets_row_yields_zero :
    parse_number_with_unit (Cell.cstr "1 234,5 МЛРД РУБ") = (none, 1) ∧
    (aggregate_financial_data
        [⟨2, [[Cell.cstr "Итого активов", Cell.cstr "1 234,5 МЛРД РУБ"]]⟩]).lookup
      "total_assets" = some 0 ∧
    (aggregate_financial_data
        [⟨2, [[Cell.cstr "Итого активов", Cell.cstr "1 234,5 МЛРД РУБ"]]⟩]).lookup
      "total_assets" ≠ some 1234.5e9 := by
  have h : (aggregate_financial_data
      [⟨2, [[Cell.cstr "Итого активов", Cell.cstr "1 234,5 МЛРД РУБ"]]⟩]).lookup
      "total_assets" = some 0 := by with_unfolding_all rfl
  refine ⟨by with_unfolding_all rfl, h, ?_⟩
  rw [h]
  intro hc
  injection hc with hc
  norm_num at hc
